import Mathlib

/-!
Verification development for the CommunityHub multi-tenant backend.

The definitions below are a shallow embedding of the TypeScript source:
`src/middleware/requireTenantRole.ts`, `src/controllers/tenantFeatures.controller.ts`,
`src/controllers/tenantUpload.controller.ts` and the tenants controller
(membership / invitation lifecycle).  MongoDB collections are modelled as
Lean lists, `findOne` as `List.find?`, `findOneAndUpdate` (optionally with
`upsert : true`) as first-match replacement, date values as integer
millisecond timestamps, and thrown `AppError`s as `Except.error` values.
Statuses and roles are kept as strings, exactly as the JavaScript code
handles them.
-/

namespace CommunityHub

/-- Structured error thrown by the controllers (`AppError(message, status, code)`),
also produced by the `fail(res, message, status, code)` response helper. -/
structure AppError where
  message : String
  status : Nat
  code : String
deriving DecidableEq, Repr

/-- A Membership document: the join entity between a user and a tenant. -/
structure Membership where
  tenantId : String
  userId : String
  role : String
  status : String
deriving DecidableEq, Repr

/-- The authenticated principal placed on the request by the auth middleware
(`req.user = { sub, globalRole }`). -/
structure AuthUser where
  sub : String
  globalRole : String
deriving DecidableEq, Repr

/-- The request inputs consulted by the tenant resolver in
`requireTenantRole`: route params, body, and query.  `none` models a
JavaScript `undefined` field (the `??` chain skips `null`/`undefined` only). -/
structure RequestTenantInputs where
  paramsTenantId : Option String := none
  paramsId : Option String := none
  bodyTenantId : Option String := none
  queryTenantId : Option String := none
deriving DecidableEq, Repr

/-- Embedding of JavaScript `String.prototype.trim()`: strip leading and
trailing whitespace.  (Defined structurally on the character list so that it
evaluates inside the kernel.) -/
def trimString (s : String) : String :=
  ⟨(((s.toList.dropWhile Char.isWhitespace).reverse.dropWhile Char.isWhitespace).reverse)⟩

/-- Embedding of JavaScript `String.prototype.toLowerCase()`. -/
def toLowerString (s : String) : String :=
  ⟨s.toList.map Char.toLower⟩

/-- Hexadecimal digit test used by the ObjectId validity check. -/
def isHexDigit (c : Char) : Bool :=
  c.isDigit || (Char.ofNat 97 ≤ c && c ≤ Char.ofNat 102) || (Char.ofNat 65 ≤ c && c ≤ Char.ofNat 70)

/-- Model of `Types.ObjectId.isValid` on strings: a 24-character hex string,
or any 12-character string (interpreted as raw bytes by the driver). -/
def isValidObjectId (s : String) : Bool :=
  (s.length == 24 && s.toList.all isHexDigit) || s.length == 12

/-- The raw tenant identifier picked by the resolver:
`req.params.tenantId ?? req.params.id ?? req.body?.tenantId ?? req.query?.tenantId ?? ''`. -/
def rawTenantId (r : RequestTenantInputs) : String :=
  match r.paramsTenantId with
  | some v => v
  | none =>
    match r.paramsId with
    | some v => v
    | none =>
      match r.bodyTenantId with
      | some v => v
      | none =>
        match r.queryTenantId with
        | some v => v
        | none => ""

/-- `String(tenantIdRaw).trim()` applied to the raw resolver output. -/
def resolvedTenantId (r : RequestTenantInputs) : String :=
  trimString (rawTenantId r)

/-- `MembershipModel.findOne({ tenantId, userId, status: 'ACTIVE' })`. -/
def membershipFindOneActive (db : List Membership) (tenantId userId : String) : Option Membership :=
  db.find? (fun m => m.tenantId == tenantId && m.userId == userId && m.status == "ACTIVE")

/-- Outcome of the `requireTenantRole` middleware: either pass control to the
next handler, or answer with `fail(res, message, status, code)`.  The gate
returns a decision only; it writes nothing. -/
inductive GateDecision where
  | next
  | fail (message : String) (status : Nat) (code : String)
deriving DecidableEq, Repr

/-- Shallow embedding of `requireTenantRole(roles)` from
`src/middleware/requireTenantRole.ts` (lines 6-31). -/
def requireTenantRole (roles : List String) (user : Option AuthUser)
    (r : RequestTenantInputs) (db : List Membership) : GateDecision :=
  match user with
  | none => .fail "Unauthorized" 401 "UNAUTHORIZED"
  | some u =>
    if u.globalRole == "SUPER_ADMIN" then .next
    else
      let tenantIdStr := resolvedTenantId r
      if tenantIdStr == "" || !(isValidObjectId tenantIdStr) then
        .fail "Valid tenantId is required" 400 "VALIDATION_ERROR"
      else
        match membershipFindOneActive db tenantIdStr u.sub with
        | none => .fail "Forbidden" 403 "FORBIDDEN"
        | some m =>
          if roles.contains m.role then .next
          else .fail "Forbidden" 403 "FORBIDDEN"

/-- `normalizeInvitationStatus(status, expiresAt)` from
`tenantFeatures.controller.ts` (lines 33-38); `expiresAtMs`/`nowMs` are the
millisecond timestamps `new Date(expiresAt).getTime()` and `Date.now()`. -/
def normalizeInvitationStatus (status : String) (expiresAtMs nowMs : Int) : String :=
  if status == "REVOKED" then "REVOKED"
  else if status == "ACCEPTED" then "ACCEPTED"
  else if expiresAtMs < nowMs then "EXPIRED"
  else "SENT"

/-- A Tenant document (the fields the modelled operations consult). -/
structure Tenant where
  id : String
  slug : String
deriving DecidableEq, Repr

/-- A TenantSettings document (tenant-level policy flags). -/
structure TenantSettings where
  tenantId : String
  publicSignup : Bool
  approvalRequired : Bool
deriving DecidableEq, Repr

/-- A User document (the fields the modelled operations consult). -/
structure User where
  id : String
  email : String
  fullName : String
  phone : String
deriving DecidableEq, Repr

/-- An Invitation document. -/
structure Invitation where
  id : String
  tenantId : String
  email : String
  phone : String := ""
  role : String
  status : String
  token : String
  expiresAtMs : Int
  invitedBy : String := ""
  revokedAtMs : Option Int := none
  revokedByUserId : Option String := none
  acceptedByUserId : Option String := none
  acceptedAtMs : Option Int := none
deriving DecidableEq, Repr

/-- A MemberProfile document. -/
structure MemberProfile where
  tenantId : String
  userId : String
  fullName : String
  phone : String
deriving DecidableEq, Repr

/-- The persistent state touched by the membership / invitation flows:
each MongoDB collection is a list of documents. -/
structure Db where
  tenants : List Tenant
  settings : List TenantSettings
  users : List User
  memberships : List Membership
  invitations : List Invitation
  profiles : List MemberProfile
deriving DecidableEq, Repr

/-- `MembershipModel.findOneAndUpdate({tenantId, userId}, {...}, {upsert:true})`:
replace the first document matching the `(tenantId, userId)` key with the
updated one, or insert a new document when none matches. -/
def upsertMembership (ms : List Membership) (t u role status : String) : List Membership :=
  match ms with
  | [] => [⟨t, u, role, status⟩]
  | m :: rest =>
    if m.tenantId == t && m.userId == u then ⟨t, u, role, status⟩ :: rest
    else m :: upsertMembership rest t u role status

/-- `MembershipModel.findOneAndUpdate({tenantId, userId}, {role, status})`
without upsert: replace the first matching document only. -/
def updateFirstMembership (ms : List Membership) (t u role status : String) : List Membership :=
  match ms with
  | [] => []
  | m :: rest =>
    if m.tenantId == t && m.userId == u then ⟨t, u, role, status⟩ :: rest
    else m :: updateFirstMembership rest t u role status

/-- `MemberProfileModel.findOneAndUpdate({tenantId, userId}, {...}, {upsert:true})`. -/
def upsertProfile (ps : List MemberProfile) (t u fullName phone : String) : List MemberProfile :=
  match ps with
  | [] => [⟨t, u, fullName, phone⟩]
  | p :: rest =>
    if p.tenantId == t && p.userId == u then ⟨t, u, fullName, phone⟩ :: rest
    else p :: upsertProfile rest t u fullName phone

/-- `invitation.save()`: write back the (by `_id`) updated invitation document. -/
def saveInvitation (invs : List Invitation) (upd : Invitation) : List Invitation :=
  invs.map (fun i => if i.id == upd.id then upd else i)

/-- The `user.save()` step of `joinTenantBySlug`: update `fullName`/`phone`
on the user document when the corresponding input is non-empty. -/
def updateUserContact (users : List User) (userId fullName phone : String) : List User :=
  users.map (fun u =>
    if u.id == userId then
      { u with
        fullName := if fullName ≠ "" then fullName else u.fullName
        phone := if phone ≠ "" then phone else u.phone }
    else u)

/-- Status for a freshly created direct-join membership:
`settings?.approvalRequired ? 'PENDING' : 'ACTIVE'` (an absent settings
document behaves like `approvalRequired` unset). -/
def directJoinStatus (settings : Option TenantSettings) : String :=
  match settings with
  | some s => if s.approvalRequired then "PENDING" else "ACTIVE"
  | none => "ACTIVE"

/-- Shallow embedding of `joinTenant` (tenants controller): direct join by
tenant id.  Returns the new state, the membership answered to the caller and
the HTTP status used by `ok` (200 for a pre-existing membership, 201 for a
created one). -/
def joinTenant (db : Db) (userSub tenantIdParam : String) :
    Except AppError (Db × Membership × Nat) :=
  match db.tenants.find? (fun t => t.id == tenantIdParam) with
  | none => .error ⟨"Tenant not found", 404, "NOT_FOUND"⟩
  | some tenant =>
    let settings := db.settings.find? (fun s => s.tenantId == tenant.id)
    let status := directJoinStatus settings
    match db.memberships.find? (fun m => m.tenantId == tenant.id && m.userId == userSub) with
    | some existing => .ok (db, existing, 200)
    | none =>
      let created : Membership := ⟨tenant.id, userSub, "MEMBER", status⟩
      .ok ({ db with memberships := db.memberships ++ [created] }, created, 201)

/-- Result of a successful `joinTenantBySlug`: the new state and the
membership document returned to the caller. -/
structure JoinResult where
  db : Db
  membership : Membership
deriving DecidableEq, Repr

/-- The tail of `joinTenantBySlug` after the invite/direct branch fixed the
assigned role and membership status: membership upsert, profile upsert,
user-contact save, and (for invite joins) marking the invitation accepted. -/
def finishJoin (db : Db) (tenant : Tenant) (user : User) (userSub : String)
    (inviteRow : Option Invitation) (assignedRole membershipStatus fullName phone : String)
    (nowMs : Int) (existingMembership : Option Membership) : Except AppError JoinResult :=
  let finalStatus :=
    match existingMembership with
    | some m => if m.status == "ACTIVE" then "ACTIVE" else membershipStatus
    | none => membershipStatus
  let upd : Membership := ⟨tenant.id, userSub, assignedRole, finalStatus⟩
  let invitations2 :=
    match inviteRow with
    | some inv =>
      saveInvitation db.invitations
        { inv with status := "ACCEPTED", acceptedByUserId := some userSub, acceptedAtMs := some nowMs }
    | none => db.invitations
  .ok ⟨{ db with
          memberships := upsertMembership db.memberships tenant.id userSub assignedRole finalStatus
          profiles := upsertProfile db.profiles tenant.id userSub fullName phone
          users := updateUserContact db.users user.id fullName phone
          invitations := invitations2 },
       upd⟩

/-- Shallow embedding of `joinTenantBySlug` (tenants controller, lines
431-535): join a tenant by slug, optionally consuming an invitation token. -/
def joinTenantBySlug (db : Db) (userSub slugParam inviteTokenBody fullNameBody phoneBody : String)
    (nowMs : Int) : Except AppError JoinResult :=
  if userSub == "" then .error ⟨"Unauthorized", 401, "UNAUTHORIZED"⟩
  else
    let slug := toLowerString slugParam
    let inviteToken := trimString inviteTokenBody
    let fullName := trimString fullNameBody
    let phone := trimString phoneBody
    match db.tenants.find? (fun t => t.slug == slug) with
    | none => .error ⟨"Tenant not found", 404, "NOT_FOUND"⟩
    | some tenant =>
      let settings := db.settings.find? (fun s => s.tenantId == tenant.id)
      match db.users.find? (fun u => u.id == userSub) with
      | none => .error ⟨"User not found", 404, "NOT_FOUND"⟩
      | some user =>
        let existingMembership :=
          db.memberships.find? (fun m => m.tenantId == tenant.id && m.userId == userSub)
        if (match existingMembership with | some m => m.status == "BANNED" | none => false) then
          .error ⟨"You are banned from this community", 403, "FORBIDDEN"⟩
        else if inviteToken ≠ "" then
          match db.invitations.find? (fun i => i.tenantId == tenant.id && i.token == inviteToken) with
          | none => .error ⟨"Invitation not found", 404, "NOT_FOUND"⟩
          | some inviteRow =>
            let invitationStatus := normalizeInvitationStatus inviteRow.status inviteRow.expiresAtMs nowMs
            if invitationStatus ≠ "SENT" then
              .error ⟨"Invitation is " ++ toLowerString invitationStatus, 400, "INVITATION_INVALID"⟩
            else if inviteRow.email ≠ toLowerString user.email then
              .error ⟨"Invitation email does not match your account", 403, "FORBIDDEN"⟩
            else
              finishJoin db tenant user userSub (some inviteRow) inviteRow.role "ACTIVE"
                fullName phone nowMs existingMembership
        else
          if (match settings with | some s => !s.publicSignup | none => true) then
            .error ⟨"Public signup is disabled for this community. An invitation link is required to join.",
                    403, "PUBLIC_JOIN_DISABLED"⟩
          else if fullName == "" then .error ⟨"Full name is required", 400, "VALIDATION_ERROR"⟩
          else if phone == "" then .error ⟨"Phone number is required", 400, "VALIDATION_ERROR"⟩
          else
            finishJoin db tenant user userSub none "MEMBER" (directJoinStatus settings)
              fullName phone nowMs existingMembership

/-- The state produced by the invite branch of `joinTenantBySlug` (the
`finishJoin` tail with `inviteRow = some inv` and membership status
`ACTIVE`): membership upsert, profile upsert, user-contact save, and the
invitation marked `ACCEPTED` with acceptor and timestamp. -/
def acceptResultDb (db : Db) (tenant : Tenant) (user : User) (userSub : String)
    (inv : Invitation) (fullNameBody phoneBody : String) (nowMs : Int) : Db :=
  { db with
    memberships := upsertMembership db.memberships tenant.id userSub inv.role "ACTIVE"
    profiles := upsertProfile db.profiles tenant.id userSub
      (trimString fullNameBody) (trimString phoneBody)
    users := updateUserContact db.users user.id (trimString fullNameBody) (trimString phoneBody)
    invitations := saveInvitation db.invitations
      { inv with status := "ACCEPTED", acceptedByUserId := some userSub,
                 acceptedAtMs := some nowMs } }

/-- The membership upsert performed by `promoteUserToTenant`
(`requireTenantRole.ts` related admin controller, lines 208-217): role is
`ADMIN` only when the body says so, `OWNER` otherwise; status is `ACTIVE`. -/
def promoteUserToTenantMembership (ms : List Membership) (tenantId userId membershipRoleBody : String) :
    List Membership × Membership :=
  let role := if membershipRoleBody == "ADMIN" then "ADMIN" else "OWNER"
  (upsertMembership ms tenantId userId role "ACTIVE", ⟨tenantId, userId, role, "ACTIVE"⟩)

/-- Shallow embedding of `createInvitation` (`tenantFeatures.controller.ts`,
lines 527-559).  `newToken`/`newId` stand for `crypto.randomUUID()` and the
generated document id; `expiresInDaysBody` is `req.body.expiresInDays`. -/
def createInvitation (invitations : List Invitation) (tenantIdParam : String)
    (emailBody phoneBody roleBody : String) (expiresInDaysBody : Option Int)
    (userSub : String) (nowMs : Int) (newToken newId : String) :
    Except AppError (List Invitation × Invitation) :=
  let email := trimString (toLowerString emailBody)
  match invitations.find? (fun i =>
      i.tenantId == tenantIdParam && i.email == email
        && (i.status == "SENT" || i.status == "PENDING")
        && decide (nowMs ≤ i.expiresAtMs)) with
  | some _ => .error ⟨"An active invitation already exists for this email", 409, "INVITATION_EXISTS"⟩
  | none =>
    if !(isValidObjectId userSub) then .error ⟨"Invalid tenantId", 400, "VALIDATION_ERROR"⟩
    else
      let ttlDays : Int :=
        match expiresInDaysBody with
        | none => 7
        | some d => if d == 0 then 7 else d
      let row : Invitation :=
        { id := newId
          tenantId := tenantIdParam
          email := email
          phone := trimString phoneBody
          role := if roleBody == "" then "MEMBER" else roleBody
          status := "SENT"
          token := newToken
          expiresAtMs := nowMs + max 1 (min 30 ttlDays) * 86400000
          invitedBy := userSub }
      .ok (invitations ++ [row], row)

/-- Shallow embedding of `resendInvitation` (`tenantFeatures.controller.ts`,
lines 561-580). -/
def resendInvitation (invitations : List Invitation) (tenantIdParam invIdParam : String)
    (newToken : String) (nowMs : Int) : Except AppError (List Invitation × Invitation) :=
  match invitations.find? (fun i => i.id == invIdParam && i.tenantId == tenantIdParam) with
  | none => .error ⟨"Invitation not found", 404, "NOT_FOUND"⟩
  | some existing =>
    if existing.status == "ACCEPTED" then
      .error ⟨"Cannot resend an accepted invitation", 400, "INVALID_STATE"⟩
    else
      let upd : Invitation :=
        { existing with
          token := newToken
          status := "SENT"
          revokedAtMs := none
          revokedByUserId := none
          expiresAtMs := nowMs + 7 * 86400000 }
      .ok (saveInvitation invitations upd, upd)

/-- Shallow embedding of `updateMemberRole` (`tenantFeatures.controller.ts`,
lines 506-514).  `statusBody` is `req.body.status`; `none` or `some ""`
model the JavaScript-falsy values that make `req.body.status || 'ACTIVE'`
fall back to `'ACTIVE'`. -/
def updateMemberRole (memberships : List Membership) (tenantIdParam userIdParam roleBody : String)
    (statusBody : Option String) : Except AppError (List Membership × Membership) :=
  let newStatus :=
    match statusBody with
    | some s => if s == "" then "ACTIVE" else s
    | none => "ACTIVE"
  match memberships.find? (fun m => m.tenantId == tenantIdParam && m.userId == userIdParam) with
  | none => .error ⟨"Membership not found", 404, "NOT_FOUND"⟩
  | some _ =>
    .ok (updateFirstMembership memberships tenantIdParam userIdParam roleBody newStatus,
         ⟨tenantIdParam, userIdParam, roleBody, newStatus⟩)

/-- A stored GridFS file document: content metadata plus the tenant tag
stamped at upload time (`metadata.tenantId`). -/
structure FileDoc where
  id : String
  contentType : String
  length : Nat
  metaTenantId : String
  metaPurpose : String := ""
deriving DecidableEq, Repr

/-- Response of the download handler: an error, or a byte stream whose only
pre-body output is the `Content-Type` header. -/
inductive FileResponse where
  | err (e : AppError)
  | stream (contentTypeHeader : String) (fileId : String)
deriving DecidableEq, Repr

/-- Shallow embedding of `getTenantFile` (`tenantUpload.controller.ts`,
lines 186-212): membership check, file-id validation, lookup, tenant-tag
comparison, then streaming. -/
def getTenantFile (memberships : List Membership) (files : List FileDoc)
    (tenantId fileId userSub : String) : FileResponse :=
  match membershipFindOneActive memberships tenantId userSub with
  | none => .err ⟨"Not a tenant member", 403, "FORBIDDEN"⟩
  | some _ =>
    if fileId == "" || !(isValidObjectId fileId) then
      .err ⟨"Invalid file id", 400, "VALIDATION_ERROR"⟩
    else
      match files.find? (fun f => f.id == fileId) with
      | none => .err ⟨"File not found", 404, "NOT_FOUND"⟩
      | some fileDoc =>
        if fileDoc.metaTenantId != tenantId then
          .err ⟨"File not found", 404, "NOT_FOUND"⟩
        else
          .stream (if fileDoc.contentType == "" then "application/octet-stream" else fileDoc.contentType)
            fileId

/-- Executable form of the claim invariant "at most one Membership document
per `(tenant, user)` pair". -/
def noDupPair : List Membership → Bool
  | [] => true
  | m :: rest =>
    rest.all (fun x => !(x.tenantId == m.tenantId && x.userId == m.userId)) && noDupPair rest

/-! ## Helper lemmas -/

/-- A first-match lookup keyed on a field that `g` preserves commutes with
`List.map g`. -/
theorem find?_map_of_key {α : Type} (key : α → String) (g : α → α)
    (hg : ∀ a, key (g a) = key a) (l : List α) (k : String) (a : α)
    (h : l.find? (fun x => key x == k) = some a) :
    (l.map g).find? (fun x => key x == k) = some (g a) := by
  induction l with
  | nil => simp at h
  | cons b l ih =>
    by_cases hb : (key b == k) = true
    · rw [List.find?_cons_of_pos l hb] at h
      injection h with h
      subst h
      refine List.find?_cons_of_pos _ ?_
      rw [hg]
      exact hb
    · rw [List.find?_cons_of_neg l hb] at h
      rw [List.map_cons]
      rw [List.find?_cons_of_neg _ (by rw [hg]; exact hb)]
      exact ih h

/-! ## C4: invitation status derivation -/

/-- C4: the invitation status reported at read time is a pure function of the
stored status, the stored expiry and the current time: a stored `REVOKED` or
`ACCEPTED` is sticky regardless of expiry; otherwise an expiry strictly
before now yields `EXPIRED`, and `SENT` otherwise. -/
theorem normalizeInvitationStatus_pure_spec (s : String) (e n : Int) :
    (s = "REVOKED" → normalizeInvitationStatus s e n = "REVOKED") ∧
    (s = "ACCEPTED" → normalizeInvitationStatus s e n = "ACCEPTED") ∧
    (s ≠ "REVOKED" → s ≠ "ACCEPTED" → e < n → normalizeInvitationStatus s e n = "EXPIRED") ∧
    (s ≠ "REVOKED" → s ≠ "ACCEPTED" → n ≤ e → normalizeInvitationStatus s e n = "SENT") := by
  refine ⟨fun h => ?_, fun h => ?_, fun h1 h2 h3 => ?_, fun h1 h2 h3 => ?_⟩
  · subst h; rfl
  · subst h; rfl
  · simp [normalizeInvitationStatus, h1, h2, h3]
  · simp [normalizeInvitationStatus, h1, h2, not_lt.mpr h3]

/-- Witness for C4 at concrete inputs. -/
theorem normalizeInvitationStatus_pure_spec_witness :
    normalizeInvitationStatus "SENT" 3 7 = "EXPIRED" :=
  (normalizeInvitationStatus_pure_spec "SENT" 3 7).2.2.1 (by decide) (by decide) (by decide)

/-! ## C1: path-bound tenant identifier precedence -/

/-- C1: when the route carries a tenant identifier, the identifier the role
gate resolves (and hence uses for its membership lookup) is the path one;
body/query `tenantId` values neither change the resolution nor the gate's
decision, and they are consulted only when no path-bound identifier exists. -/
theorem requireTenantRole_path_param_precedence (roles : List String) (u : Option AuthUser)
    (db : List Membership) (r : RequestTenantInputs) (t : String) (b q : Option String)
    (h : r.paramsTenantId = some t) :
    resolvedTenantId { r with bodyTenantId := b, queryTenantId := q } = trimString t ∧
    requireTenantRole roles u { r with bodyTenantId := b, queryTenantId := q } db
      = requireTenantRole roles u r db ∧
    (∀ r2 : RequestTenantInputs, r2.paramsTenantId = none → r2.paramsId = none →
      rawTenantId r2 = (match r2.bodyTenantId with
        | some v => v
        | none => r2.queryTenantId.getD "")) := by
  have hres : resolvedTenantId { r with bodyTenantId := b, queryTenantId := q } = trimString t := by
    simp [resolvedTenantId, rawTenantId, h]
  have hsame : resolvedTenantId { r with bodyTenantId := b, queryTenantId := q }
      = resolvedTenantId r := by
    simp [resolvedTenantId, rawTenantId, h]
  refine ⟨hres, ?_, ?_⟩
  · cases u with
    | none => rfl
    | some usr =>
      unfold requireTenantRole
      rw [hsame]
  · intro r2 h1 h2
    cases hb : r2.bodyTenantId <;> cases hq : r2.queryTenantId <;>
      simp [rawTenantId, h1, h2, hb, hq]

/-- Witness for C1 at a concrete request. -/
theorem requireTenantRole_path_param_precedence_witness :
    ((⟨some "aaaaaaaaaaaaaaaaaaaaaaaa", none, none, none⟩ : RequestTenantInputs).paramsTenantId
        = some "aaaaaaaaaaaaaaaaaaaaaaaa") ∧
    resolvedTenantId { (⟨some "aaaaaaaaaaaaaaaaaaaaaaaa", none, none, none⟩ : RequestTenantInputs) with
        bodyTenantId := some "bbbbbbbbbbbbbbbbbbbbbbbb", queryTenantId := none }
      = trimString "aaaaaaaaaaaaaaaaaaaaaaaa" :=
  ⟨rfl,
   (requireTenantRole_path_param_precedence [] none []
      ⟨some "aaaaaaaaaaaaaaaaaaaaaaaa", none, none, none⟩ "aaaaaaaaaaaaaaaaaaaaaaaa"
      (some "bbbbbbbbbbbbbbbbbbbbbbbb") none rfl).1⟩

/-! ## C10: role update defaults membership status to ACTIVE -/

/-- C10: when `updateMemberRole` is called on an existing membership and the
body omits `status` (or supplies the empty string), the stored membership is
rewritten with the new role and status `ACTIVE`, whatever its previous
status (in particular a PENDING, SUSPENDED or BANNED member is activated). -/
theorem updateMemberRole_activates_on_missing_status (memberships : List Membership)
    (tenantIdParam userIdParam roleBody : String) (statusBody : Option String) (m : Membership)
    (hfind : memberships.find? (fun x => x.tenantId == tenantIdParam && x.userId == userIdParam)
        = some m)
    (hfalsy : statusBody = none ∨ statusBody = some "") :
    updateMemberRole memberships tenantIdParam userIdParam roleBody statusBody
      = .ok (updateFirstMembership memberships tenantIdParam userIdParam roleBody "ACTIVE",
             ⟨tenantIdParam, userIdParam, roleBody, "ACTIVE"⟩) := by
  rcases hfalsy with h | h <;> subst h <;> simp [updateMemberRole, hfind]

/-- Witness for C10: a role-only update of a PENDING member activates it. -/
theorem updateMemberRole_activates_on_missing_status_witness :
    updateMemberRole [⟨"t1", "u1", "MEMBER", "PENDING"⟩] "t1" "u1" "MODERATOR" none
      = .ok ([⟨"t1", "u1", "MODERATOR", "ACTIVE"⟩], ⟨"t1", "u1", "MODERATOR", "ACTIVE"⟩) :=
  updateMemberRole_activates_on_missing_status [⟨"t1", "u1", "MEMBER", "PENDING"⟩]
    "t1" "u1" "MODERATOR" none ⟨"t1", "u1", "MEMBER", "PENDING"⟩ (by decide) (Or.inl rfl)

/-! ## C3: cross-tenant file download degrades to an indistinguishable NotFound -/

/-- C3: for an active member of the requested tenant, a download whose stored
tenant tag differs (string comparison) from the resolved tenant identifier
fails with the literal `File not found` 404 — never a 403 — and the response
is exactly the one produced when the file does not exist at all; moreover it
is independent of the file's content-type and size. -/
theorem getTenantFile_cross_tenant_indistinguishable (memberships : List Membership)
    (files : List FileDoc) (tenantId fileId userSub : String) (fd : FileDoc)
    (hmem : (membershipFindOneActive memberships tenantId userSub).isSome = true)
    (hne : fileId ≠ "") (hvalid : isValidObjectId fileId = true)
    (hfind : files.find? (fun f => f.id == fileId) = some fd)
    (hmismatch : fd.metaTenantId ≠ tenantId) :
    getTenantFile memberships files tenantId fileId userSub
        = .err ⟨"File not found", 404, "NOT_FOUND"⟩ ∧
    getTenantFile memberships files tenantId fileId userSub
        = getTenantFile memberships [] tenantId fileId userSub ∧
    (∀ ct : String, ∀ len : Nat,
      getTenantFile memberships [{ fd with contentType := ct, length := len }]
        tenantId fileId userSub
        = .err ⟨"File not found", 404, "NOT_FOUND"⟩) := by
  obtain ⟨mm, hmm⟩ := Option.isSome_iff_exists.mp hmem
  have hmain : getTenantFile memberships files tenantId fileId userSub
      = .err ⟨"File not found", 404, "NOT_FOUND"⟩ := by
    simp [getTenantFile, hmm, hne, hvalid, hfind, hmismatch]
  refine ⟨hmain, ?_, ?_⟩
  · rw [hmain]
    simp [getTenantFile, hmm, hne, hvalid]
  · intro ct len
    have hfd : fd.id = fileId := by
      have := List.find?_some hfind
      simpa using this
    simp [getTenantFile, hmm, hne, hvalid, hfd, hmismatch]

/-- Witness for C3: a member of tenant `aaaa…` requesting a file tagged for
tenant `bbbb…` gets the generic not-found error. -/
theorem getTenantFile_cross_tenant_indistinguishable_witness :
    getTenantFile [⟨"aaaaaaaaaaaaaaaaaaaaaaaa", "u1", "MEMBER", "ACTIVE"⟩]
        [⟨"cccccccccccccccccccccccc", "image/png", 5, "bbbbbbbbbbbbbbbbbbbbbbbb", "resource"⟩]
        "aaaaaaaaaaaaaaaaaaaaaaaa" "cccccccccccccccccccccccc" "u1"
      = .err ⟨"File not found", 404, "NOT_FOUND"⟩ :=
  (getTenantFile_cross_tenant_indistinguishable
      [⟨"aaaaaaaaaaaaaaaaaaaaaaaa", "u1", "MEMBER", "ACTIVE"⟩]
      [⟨"cccccccccccccccccccccccc", "image/png", 5, "bbbbbbbbbbbbbbbbbbbbbbbb", "resource"⟩]
      "aaaaaaaaaaaaaaaaaaaaaaaa" "cccccccccccccccccccccccc" "u1"
      ⟨"cccccccccccccccccccccccc", "image/png", 5, "bbbbbbbbbbbbbbbbbbbbbbbb", "resource"⟩
      (by decide) (by decide) (by decide) (by decide) (by decide)).1

/-! ## C2: role gate decision procedure -/

/-- C2: the decision order of `requireTenantRole(allowedRoles)` for an
authenticated caller: a global `SUPER_ADMIN` passes unconditionally; an
absent or structurally invalid resolved tenant identifier yields the 400
validation failure; with a valid identifier the gate passes exactly when an
ACTIVE membership of the resolved tenant for the caller exists whose role is
allowed (so PENDING/SUSPENDED/BANNED records never grant), and fails 403
otherwise.  The membership store is assumed to hold at most one record per
`(tenant, user)` pair; the gate returns a decision only and writes nothing. -/
theorem requireTenantRole_decision_order (roles : List String) (u : AuthUser)
    (r : RequestTenantInputs) (db : List Membership)
    (hdb : ∀ m1 ∈ db, ∀ m2 ∈ db,
        m1.tenantId = m2.tenantId → m1.userId = m2.userId → m1 = m2) :
    (u.globalRole = "SUPER_ADMIN" → requireTenantRole roles (some u) r db = .next) ∧
    (u.globalRole ≠ "SUPER_ADMIN" →
      (resolvedTenantId r = "" ∨ isValidObjectId (resolvedTenantId r) = false) →
      requireTenantRole roles (some u) r db
        = .fail "Valid tenantId is required" 400 "VALIDATION_ERROR") ∧
    (u.globalRole ≠ "SUPER_ADMIN" → resolvedTenantId r ≠ "" →
      isValidObjectId (resolvedTenantId r) = true →
      ((requireTenantRole roles (some u) r db = .next ↔
          ∃ m ∈ db, m.tenantId = resolvedTenantId r ∧ m.userId = u.sub ∧
            m.status = "ACTIVE" ∧ m.role ∈ roles) ∧
        (¬(∃ m ∈ db, m.tenantId = resolvedTenantId r ∧ m.userId = u.sub ∧
            m.status = "ACTIVE" ∧ m.role ∈ roles) →
          requireTenantRole roles (some u) r db = .fail "Forbidden" 403 "FORBIDDEN"))) := by
  refine ⟨fun h => ?_, fun h hbad => ?_, fun h h1 h2 => ?_⟩
  · simp [requireTenantRole, h]
  · have hcond : ((resolvedTenantId r == "") || !(isValidObjectId (resolvedTenantId r))) = true := by
      rcases hbad with hb | hb <;> simp [hb]
    simp [requireTenantRole, h, hcond]
  · have hcond : ((resolvedTenantId r == "") || !(isValidObjectId (resolvedTenantId r))) = false := by
      simp [h1, h2]
    cases hf : membershipFindOneActive db (resolvedTenantId r) u.sub with
    | none =>
      have hno : ∀ m ∈ db, ¬(m.tenantId = resolvedTenantId r ∧ m.userId = u.sub ∧
          m.status = "ACTIVE") := by
        intro m hm hmpr
        have := List.find?_eq_none.mp hf m hm
        simp only [Bool.and_eq_true, beq_iff_eq] at this
        exact this ⟨⟨hmpr.1, hmpr.2.1⟩, hmpr.2.2⟩
      have hgate : requireTenantRole roles (some u) r db = .fail "Forbidden" 403 "FORBIDDEN" := by
        simp [requireTenantRole, h, hcond, hf]
      constructor
      · rw [hgate]
        constructor
        · intro hc; cases hc
        · rintro ⟨m, hm, hmt, hmu, hms, _⟩
          exact absurd ⟨hmt, hmu, hms⟩ (hno m hm)
      · intro _; exact hgate
    | some m0 =>
      have hm0mem : m0 ∈ db := List.mem_of_find?_eq_some hf
      have hm0p := List.find?_some hf
      simp only [Bool.and_eq_true, beq_iff_eq] at hm0p
      obtain ⟨⟨hm0t, hm0u⟩, hm0s⟩ := hm0p
      by_cases hrole : roles.contains m0.role = true
      · have hm0r : m0.role ∈ roles := by simpa using hrole
        have hgate : requireTenantRole roles (some u) r db = .next := by
          simp [requireTenantRole, h, hcond, hf, hm0r]
        have hex : ∃ m ∈ db, m.tenantId = resolvedTenantId r ∧ m.userId = u.sub ∧
            m.status = "ACTIVE" ∧ m.role ∈ roles :=
          ⟨m0, hm0mem, hm0t, hm0u, hm0s, hm0r⟩
        exact ⟨by simp [hgate, hex], fun hne => absurd hex hne⟩
      · have hm0r : m0.role ∉ roles := by simpa using hrole
        have hgate : requireTenantRole roles (some u) r db
            = .fail "Forbidden" 403 "FORBIDDEN" := by
          simp [requireTenantRole, h, hcond, hf, hm0r]
        have hnex : ¬(∃ m ∈ db, m.tenantId = resolvedTenantId r ∧ m.userId = u.sub ∧
            m.status = "ACTIVE" ∧ m.role ∈ roles) := by
          rintro ⟨m, hm, hmt, hmu, _, hmr⟩
          have heq : m = m0 := hdb m hm m0 hm0mem (hmt.trans hm0t.symm) (hmu.trans hm0u.symm)
          subst heq
          exact hm0r hmr
        refine ⟨?_, fun _ => hgate⟩
        rw [hgate]
        constructor
        · intro hc; cases hc
        · intro hex; exact absurd hex hnex

/-- Witness for C2: an ACTIVE OWNER membership of the path tenant passes the
gate. -/
theorem requireTenantRole_decision_order_witness :
    requireTenantRole ["OWNER", "ADMIN"] (some ⟨"u1", "USER"⟩)
        ⟨some "aaaaaaaaaaaaaaaaaaaaaaaa", none, none, none⟩
        [⟨"aaaaaaaaaaaaaaaaaaaaaaaa", "u1", "OWNER", "ACTIVE"⟩] = .next := by
  have h := requireTenantRole_decision_order ["OWNER", "ADMIN"] ⟨"u1", "USER"⟩
    ⟨some "aaaaaaaaaaaaaaaaaaaaaaaa", none, none, none⟩
    [⟨"aaaaaaaaaaaaaaaaaaaaaaaa", "u1", "OWNER", "ACTIVE"⟩] (by decide)
  exact (h.2.2 (by decide) (by decide) (by decide)).1.mpr
    ⟨⟨"aaaaaaaaaaaaaaaaaaaaaaaa", "u1", "OWNER", "ACTIVE"⟩, by decide, by decide, by decide,
      by decide, by decide⟩

/-! ## C8: resend blocked only by prior acceptance -/

/-- C8: `resendInvitation` fails with the 400 `INVALID_STATE` error exactly
when the invitation's derived status is `ACCEPTED` (the stored `ACCEPTED`
flag); in every other state — `SENT`, `EXPIRED`, and also `REVOKED` — it
succeeds, reissuing the token, resetting the stored status to `SENT`,
clearing `revokedAt`/`revokedByUserId`, and setting a new expiry seven days
in the future, so the resulting derived status is `SENT`. -/
theorem resendInvitation_spec (invitations : List Invitation)
    (tenantIdParam invIdParam newToken : String) (nowMs : Int) (ex : Invitation)
    (hfind : invitations.find? (fun i => i.id == invIdParam && i.tenantId == tenantIdParam)
        = some ex) :
    (resendInvitation invitations tenantIdParam invIdParam newToken nowMs
        = .error ⟨"Cannot resend an accepted invitation", 400, "INVALID_STATE"⟩ ↔
      normalizeInvitationStatus ex.status ex.expiresAtMs nowMs = "ACCEPTED") ∧
    (normalizeInvitationStatus ex.status ex.expiresAtMs nowMs ≠ "ACCEPTED" →
      resendInvitation invitations tenantIdParam invIdParam newToken nowMs
        = .ok (saveInvitation invitations
                { ex with token := newToken, status := "SENT", revokedAtMs := none,
                          revokedByUserId := none, expiresAtMs := nowMs + 7 * 86400000 },
               { ex with token := newToken, status := "SENT", revokedAtMs := none,
                         revokedByUserId := none, expiresAtMs := nowMs + 7 * 86400000 }) ∧
      normalizeInvitationStatus "SENT" (nowMs + 7 * 86400000) nowMs = "SENT") := by
  have hacc : normalizeInvitationStatus ex.status ex.expiresAtMs nowMs = "ACCEPTED"
      ↔ ex.status = "ACCEPTED" := by
    unfold normalizeInvitationStatus
    by_cases h1 : ex.status = "REVOKED"
    · simp [h1]
    · by_cases h2 : ex.status = "ACCEPTED"
      · simp [h1, h2]
      · by_cases h3 : ex.expiresAtMs < nowMs <;> simp [h1, h2, h3]
  constructor
  · rw [hacc]
    by_cases hs : ex.status = "ACCEPTED"
    · simp [resendInvitation, hfind, hs]
    · simp [resendInvitation, hfind, hs]
  · intro hne
    have hs : ex.status ≠ "ACCEPTED" := fun h => hne (hacc.mpr h)
    constructor
    · simp [resendInvitation, hfind, hs]
    · have : ¬ (nowMs + 7 * 86400000 < nowMs) := by omega
      simp [normalizeInvitationStatus, this]

/-- Witness for C8: resending a REVOKED invitation succeeds and returns it
to a SENT state with a fresh token and expiry. -/
theorem resendInvitation_spec_witness :
    resendInvitation
        [{ id := "i1", tenantId := "t1", email := "a@b.c", role := "MEMBER",
           status := "REVOKED", token := "old", expiresAtMs := -5,
           revokedAtMs := some 1, revokedByUserId := some "u9" }]
        "t1" "i1" "new" 0
      = .ok ([{ id := "i1", tenantId := "t1", email := "a@b.c", role := "MEMBER",
                status := "SENT", token := "new", expiresAtMs := 604800000 }],
             { id := "i1", tenantId := "t1", email := "a@b.c", role := "MEMBER",
               status := "SENT", token := "new", expiresAtMs := 604800000 }) :=
  ((resendInvitation_spec
      [{ id := "i1", tenantId := "t1", email := "a@b.c", role := "MEMBER",
         status := "REVOKED", token := "old", expiresAtMs := -5,
         revokedAtMs := some 1, revokedByUserId := some "u9" }]
      "t1" "i1" "new" 0
      { id := "i1", tenantId := "t1", email := "a@b.c", role := "MEMBER",
        status := "REVOKED", token := "old", expiresAtMs := -5,
        revokedAtMs := some 1, revokedByUserId := some "u9" }
      (by decide)).2 (by decide)).1

/-! ## C6: duplicate-invitation conflict and TTL handling -/

/-- C6 counterexample: requesting `expiresInDays = 0` does not produce the
claimed clamp-to-[1,30] TTL of 1 day.  `0` is JavaScript-falsy, so
`req.body.expiresInDays || 7` replaces it with the 7-day default: the stored
expiry is `now + 7 * 86400000` ms, while the claimed clamped value would be
`now + 1 * 86400000` ms. -/
theorem createInvitation_zero_ttl_not_clamped :
    createInvitation [] "t1" "a@b.c" "" "" (some 0) "aaaaaaaaaaaaaaaaaaaaaaaa" 0 "tok" "i1"
      = .ok ([{ id := "i1", tenantId := "t1", email := "a@b.c", role := "MEMBER",
                status := "SENT", token := "tok", expiresAtMs := 604800000,
                invitedBy := "aaaaaaaaaaaaaaaaaaaaaaaa" }],
             { id := "i1", tenantId := "t1", email := "a@b.c", role := "MEMBER",
               status := "SENT", token := "tok", expiresAtMs := 604800000,
               invitedBy := "aaaaaaaaaaaaaaaaaaaaaaaa" }) ∧
    (604800000 : Int) ≠ 0 + (max 1 (min 30 (0 : Int))) * 86400000 := by
  exact ⟨rfl, by decide⟩

/-- C6 (amended): creating an invitation fails with the 409 conflict iff an
existing invitation for the same tenant and the same lowercased email is in
a non-terminal, non-expired state (derived status `SENT`); on success the
TTL in days is the requested value clamped to [1, 30] when a nonzero value
was requested, and the 7-day default when the requested value is absent or
zero.  The stored-status hypothesis reflects that the system only ever
writes `SENT`, `ACCEPTED` or `REVOKED`. -/
theorem createInvitation_conflict_and_ttl (invitations : List Invitation)
    (tenantIdParam emailBody phoneBody roleBody : String) (expiresInDaysBody : Option Int)
    (userSub : String) (nowMs : Int) (newToken newId : String)
    (hsub : isValidObjectId userSub = true)
    (hstatuses : ∀ i ∈ invitations,
        i.status = "SENT" ∨ i.status = "ACCEPTED" ∨ i.status = "REVOKED") :
    (createInvitation invitations tenantIdParam emailBody phoneBody roleBody expiresInDaysBody
          userSub nowMs newToken newId
        = .error ⟨"An active invitation already exists for this email", 409, "INVITATION_EXISTS"⟩
      ↔ ∃ i ∈ invitations, i.tenantId = tenantIdParam
          ∧ i.email = trimString (toLowerString emailBody)
          ∧ normalizeInvitationStatus i.status i.expiresAtMs nowMs = "SENT") ∧
    (∀ l row, createInvitation invitations tenantIdParam emailBody phoneBody roleBody
          expiresInDaysBody userSub nowMs newToken newId = .ok (l, row) →
        l = invitations ++ [row] ∧ row.status = "SENT" ∧ row.token = newToken ∧
        row.email = trimString (toLowerString emailBody) ∧
        row.expiresAtMs = nowMs +
          (match expiresInDaysBody with
            | none => 7
            | some d => if d = 0 then 7 else max 1 (min 30 d)) * 86400000) := by
  have hpred : ∀ i ∈ invitations,
      ((i.tenantId == tenantIdParam && i.email == trimString (toLowerString emailBody)
          && (i.status == "SENT" || i.status == "PENDING")
          && decide (nowMs ≤ i.expiresAtMs)) = true
        ↔ (i.tenantId = tenantIdParam ∧ i.email = trimString (toLowerString emailBody)
            ∧ normalizeInvitationStatus i.status i.expiresAtMs nowMs = "SENT")) := by
    intro i hi
    rcases hstatuses i hi with hs | hs | hs
    · constructor
      · intro hb
        simp only [Bool.and_eq_true, Bool.or_eq_true, beq_iff_eq, decide_eq_true_eq] at hb
        refine ⟨hb.1.1.1, hb.1.1.2, ?_⟩
        simp [normalizeInvitationStatus, hs, not_lt.mpr hb.2]
      · rintro ⟨h1, h2, h3⟩
        have hle : nowMs ≤ i.expiresAtMs := by
          by_contra hlt
          simp [normalizeInvitationStatus, hs, lt_of_not_le hlt] at h3
        simp [h1, h2, hs, hle]
    · constructor
      · intro hb
        simp only [Bool.and_eq_true, Bool.or_eq_true, beq_iff_eq, decide_eq_true_eq] at hb
        rcases hb.1.2 with h | h <;> simp [hs] at h
      · rintro ⟨_, _, h3⟩
        simp [normalizeInvitationStatus, hs] at h3
    · constructor
      · intro hb
        simp only [Bool.and_eq_true, Bool.or_eq_true, beq_iff_eq, decide_eq_true_eq] at hb
        rcases hb.1.2 with h | h <;> simp [hs] at h
      · rintro ⟨_, _, h3⟩
        simp [normalizeInvitationStatus, hs] at h3
  cases hfind : invitations.find? (fun i =>
      i.tenantId == tenantIdParam && i.email == trimString (toLowerString emailBody)
        && (i.status == "SENT" || i.status == "PENDING")
        && decide (nowMs ≤ i.expiresAtMs)) with
  | some i0 =>
    have hi0 : i0 ∈ invitations := List.mem_of_find?_eq_some hfind
    have hp0 := List.find?_some hfind
    have herr : createInvitation invitations tenantIdParam emailBody phoneBody roleBody
        expiresInDaysBody userSub nowMs newToken newId
        = .error ⟨"An active invitation already exists for this email", 409, "INVITATION_EXISTS"⟩ := by
      simp [createInvitation, hfind]
    refine ⟨?_, ?_⟩
    · rw [herr]
      exact ⟨fun _ => ⟨i0, hi0, (hpred i0 hi0).mp hp0⟩, fun _ => rfl⟩
    · intro l row hok
      rw [herr] at hok
      cases hok
  | none =>
    have hok : createInvitation invitations tenantIdParam emailBody phoneBody roleBody
        expiresInDaysBody userSub nowMs newToken newId
        = .ok (invitations ++
            [{ id := newId, tenantId := tenantIdParam,
               email := trimString (toLowerString emailBody), phone := trimString phoneBody,
               role := if roleBody == "" then "MEMBER" else roleBody, status := "SENT",
               token := newToken,
               expiresAtMs := nowMs + max 1 (min 30
                 (match expiresInDaysBody with
                   | none => 7
                   | some d => if d == 0 then 7 else d)) * 86400000,
               invitedBy := userSub }],
            { id := newId, tenantId := tenantIdParam,
              email := trimString (toLowerString emailBody), phone := trimString phoneBody,
              role := if roleBody == "" then "MEMBER" else roleBody, status := "SENT",
              token := newToken,
              expiresAtMs := nowMs + max 1 (min 30
                (match expiresInDaysBody with
                  | none => 7
                  | some d => if d == 0 then 7 else d)) * 86400000,
              invitedBy := userSub }) := by
      simp [createInvitation, hfind, hsub]
    refine ⟨?_, ?_⟩
    · rw [hok]
      constructor
      · intro h; cases h
      · rintro ⟨i, hi, hprops⟩
        have := List.find?_eq_none.mp hfind i hi
        exact absurd ((hpred i hi).mpr hprops) this
    · intro l row h
      rw [hok] at h
      injection h with h
      injection h with hl hrow
      subst hl
      subst hrow
      refine ⟨rfl, rfl, rfl, rfl, ?_⟩
      cases expiresInDaysBody with
      | none => norm_num
      | some d =>
        by_cases hd : d = 0
        · subst hd; norm_num
        · have hd2 : (d == 0) = false := by simp [hd]
          simp only [hd2, if_neg hd, Bool.false_eq_true, if_false]

/-- Witness for C6 (amended): an outstanding SENT, unexpired invitation for
the same tenant and lowercased email triggers the 409 conflict. -/
theorem createInvitation_conflict_and_ttl_witness :
    createInvitation
        [{ id := "i0", tenantId := "t1", email := "a@b.c", role := "MEMBER",
           status := "SENT", token := "tk", expiresAtMs := 100 }]
        "t1" "A@B.c" "" "" none "aaaaaaaaaaaaaaaaaaaaaaaa" 0 "tok" "i1"
      = .error ⟨"An active invitation already exists for this email", 409, "INVITATION_EXISTS"⟩ :=
  (createInvitation_conflict_and_ttl
      [{ id := "i0", tenantId := "t1", email := "a@b.c", role := "MEMBER",
         status := "SENT", token := "tk", expiresAtMs := 100 }]
      "t1" "A@B.c" "" "" none "aaaaaaaaaaaaaaaaaaaaaaaa" 0 "tok" "i1"
      (by decide) (by decide)).1.mpr
    ⟨{ id := "i0", tenantId := "t1", email := "a@b.c", role := "MEMBER",
       status := "SENT", token := "tk", expiresAtMs := 100 },
     by decide, by decide, by decide, by decide⟩

/-! ## C9: at most one membership per (tenant, user) pair -/

/-- Elements of an upsert result come from the original list or carry the
upserted key. -/
theorem mem_upsertMembership (ms : List Membership) (t u role status : String) (x : Membership)
    (hx : x ∈ upsertMembership ms t u role status) :
    x ∈ ms ∨ (x.tenantId = t ∧ x.userId = u) := by
  induction ms with
  | nil =>
    simp only [upsertMembership, List.mem_singleton] at hx
    subst hx
    exact Or.inr ⟨rfl, rfl⟩
  | cons m rest ih =>
    unfold upsertMembership at hx
    by_cases hm : (m.tenantId == t && m.userId == u) = true
    · rw [if_pos hm] at hx
      rcases List.mem_cons.mp hx with h | h
      · subst h; exact Or.inr ⟨rfl, rfl⟩
      · exact Or.inl (List.mem_cons_of_mem m h)
    · rw [if_neg hm] at hx
      rcases List.mem_cons.mp hx with h | h
      · subst h; exact Or.inl (List.mem_cons_self _ _)
      · rcases ih h with h2 | h2
        · exact Or.inl (List.mem_cons_of_mem m h2)
        · exact Or.inr h2

/-- The `(tenantId, userId)`-keyed upsert preserves pair uniqueness. -/
theorem noDupPair_upsertMembership (ms : List Membership) (t u role status : String)
    (h : noDupPair ms = true) : noDupPair (upsertMembership ms t u role status) = true := by
  induction ms with
  | nil => simp [upsertMembership, noDupPair]
  | cons m rest ih =>
    unfold noDupPair at h
    rw [Bool.and_eq_true] at h
    obtain ⟨hall, hrest⟩ := h
    unfold upsertMembership
    by_cases hm : (m.tenantId == t && m.userId == u) = true
    · rw [if_pos hm]
      unfold noDupPair
      rw [Bool.and_eq_true]
      refine ⟨?_, hrest⟩
      rw [List.all_eq_true] at hall ⊢
      intro x hx
      have hxm := hall x hx
      simp only [Bool.and_eq_true, beq_iff_eq] at hm
      obtain ⟨hmt, hmu⟩ := hm
      simpa [hmt, hmu] using hxm
    · rw [if_neg hm]
      unfold noDupPair
      rw [Bool.and_eq_true]
      refine ⟨?_, ih hrest⟩
      rw [List.all_eq_true] at hall ⊢
      intro x hx
      rcases mem_upsertMembership rest t u role status x hx with h2 | h2
      · exact hall x h2
      · have hnm : ¬(m.tenantId = t ∧ m.userId = u) := by
          simpa [Bool.and_eq_true, beq_iff_eq] using hm
        simp only [h2.1, h2.2, Bool.not_eq_true', Bool.and_eq_false_iff, beq_eq_false_iff_ne,
          ne_eq]
        by_cases ht : m.tenantId = t
        · exact Or.inr (fun hu => hnm ⟨ht, hu.symm⟩)
        · exact Or.inl (fun ht2 => ht ht2.symm)

/-- When no document matches the key, the upsert is an insert at the end. -/
theorem upsertMembership_eq_append_of_not_found (ms : List Membership) (t u role status : String)
    (h : ms.find? (fun m => m.tenantId == t && m.userId == u) = none) :
    upsertMembership ms t u role status = ms ++ [⟨t, u, role, status⟩] := by
  induction ms with
  | nil => rfl
  | cons m rest ih =>
    have hm : ¬ ((fun m : Membership => m.tenantId == t && m.userId == u) m = true) := by
      intro hc
      rw [List.find?_cons_of_pos rest hc] at h
      cases h
    rw [List.find?_cons_of_neg rest hm] at h
    unfold upsertMembership
    rw [if_neg hm, ih h]
    rfl

/-- Every successful `joinTenantBySlug` writes its membership through the
`(tenantId, userId)`-keyed upsert. -/
theorem joinTenantBySlug_ok_memberships (db : Db)
    (userSub slugParam tok fn ph : String) (nowMs : Int) (jr : JoinResult)
    (h : joinTenantBySlug db userSub slugParam tok fn ph nowMs = .ok jr) :
    ∃ tid role status, jr.db.memberships = upsertMembership db.memberships tid userSub role status := by
  simp only [joinTenantBySlug] at h
  repeat' split at h
  all_goals first
    | exact Except.noConfusion h
    | (simp only [finishJoin] at h
       injection h with h
       subst h
       exact ⟨_, _, _, rfl⟩)

/-- C9: each membership-writing operation — direct join (`joinTenant`),
join-by-slug / invitation acceptance (`joinTenantBySlug`), and the
super-admin promotion upsert — preserves the invariant that at most one
membership document exists per `(tenant, user)` pair: each either upserts
keyed on `(tenantId, userId)` or creates only after finding none. -/
theorem membership_ops_preserve_unique_pair (db : Db)
    (hdb : noDupPair db.memberships = true) :
    (∀ userSub tenantIdParam db2 m code,
      joinTenant db userSub tenantIdParam = .ok (db2, m, code) →
        noDupPair db2.memberships = true) ∧
    (∀ userSub slugParam tok fn ph nowMs jr,
      joinTenantBySlug db userSub slugParam tok fn ph nowMs = .ok jr →
        noDupPair jr.db.memberships = true) ∧
    (∀ tenantId userId roleBody,
      noDupPair (promoteUserToTenantMembership db.memberships tenantId userId roleBody).1 = true) := by
  refine ⟨?_, ?_, ?_⟩
  · intro userSub tenantIdParam db2 m code h
    simp only [joinTenant] at h
    split at h
    · exact Except.noConfusion h
    · rename_i tenant htenant
      split at h
      · injection h with h
        injection h with h1 h2
        subst h1
        exact hdb
      · rename_i hfind
        injection h with h
        injection h with h1 h2
        subst h1
        have happ := upsertMembership_eq_append_of_not_found db.memberships tenant.id userSub
          "MEMBER" (directJoinStatus (db.settings.find? (fun s => s.tenantId == tenant.id))) hfind
        show noDupPair (db.memberships ++ [_]) = true
        rw [← happ]
        exact noDupPair_upsertMembership _ _ _ _ _ hdb
  · intro userSub slugParam tok fn ph nowMs jr h
    obtain ⟨tid, role, status, heq⟩ := joinTenantBySlug_ok_memberships db userSub slugParam
      tok fn ph nowMs jr h
    rw [heq]
    exact noDupPair_upsertMembership _ _ _ _ _ hdb
  · intro tenantId userId roleBody
    exact noDupPair_upsertMembership _ _ _ _ _ hdb

/-- Witness for C9: promoting a second user into a tenant keeps one
membership document per pair. -/
theorem membership_ops_preserve_unique_pair_witness :
    noDupPair (promoteUserToTenantMembership [⟨"t1", "u1", "OWNER", "ACTIVE"⟩]
        "t1" "u2" "ADMIN").1 = true :=
  (membership_ops_preserve_unique_pair
      ⟨[], [], [], [⟨"t1", "u1", "OWNER", "ACTIVE"⟩], [], []⟩ (by decide)).2.2 "t1" "u2" "ADMIN"

/-! ## C7: direct join policy and repeated joins -/

/-- C7 counterexample: a repeated direct join via `joinTenantBySlug` does
not return a pre-existing membership as-is.  A user holding an `OWNER`,
`ACTIVE` membership who joins again through the slug route has the record
re-upserted with role `MEMBER`: the stored role is overwritten to a worse
one. -/
theorem joinTenantBySlug_overwrites_existing_role :
    joinTenantBySlug
        ⟨[⟨"t1", "acme"⟩], [⟨"t1", true, false⟩], [⟨"u1", "o@x.com", "", ""⟩],
          [⟨"t1", "u1", "OWNER", "ACTIVE"⟩], [], []⟩
        "u1" "acme" "" "Alice" "123" 0
      = .ok ⟨⟨[⟨"t1", "acme"⟩], [⟨"t1", true, false⟩], [⟨"u1", "o@x.com", "Alice", "123"⟩],
              [⟨"t1", "u1", "MEMBER", "ACTIVE"⟩], [], [⟨"t1", "u1", "Alice", "123"⟩]⟩,
             ⟨"t1", "u1", "MEMBER", "ACTIVE"⟩⟩ ∧
    ("MEMBER" : String) ≠ "OWNER" :=
  ⟨rfl, by decide⟩

/-- C7 (amended): a direct join creates a new membership with status
`PENDING` when the approval-required flag is set and `ACTIVE` otherwise.
`joinTenant` returns a pre-existing membership as-is, writing nothing.
`joinTenantBySlug`, by contrast, re-upserts an existing record: a `BANNED`
member is rejected earlier and an `ACTIVE` status is preserved, but the
stored role is overwritten with the newly assigned role (`MEMBER` for a
direct join) and a non-`ACTIVE` status is recomputed from the policy flag. -/
theorem join_direct_policy_and_existing (db : Db) (userSub tenantIdParam : String)
    (tenant : Tenant)
    (htenant : db.tenants.find? (fun t => t.id == tenantIdParam) = some tenant) :
    (db.memberships.find? (fun m => m.tenantId == tenant.id && m.userId == userSub) = none →
      joinTenant db userSub tenantIdParam
        = .ok ({ db with memberships := db.memberships ++
                  [⟨tenant.id, userSub, "MEMBER",
                    directJoinStatus (db.settings.find? (fun s => s.tenantId == tenant.id))⟩] },
               ⟨tenant.id, userSub, "MEMBER",
                 directJoinStatus (db.settings.find? (fun s => s.tenantId == tenant.id))⟩, 201)) ∧
    (∀ m, db.memberships.find? (fun m2 => m2.tenantId == tenant.id && m2.userId == userSub)
          = some m →
      joinTenant db userSub tenantIdParam = .ok (db, m, 200)) ∧
    (∀ slugParam fullNameBody phoneBody : String, ∀ nowMs : Int, ∀ user : User,
        ∀ st : TenantSettings,
      db.tenants.find? (fun t => t.slug == toLowerString slugParam) = some tenant →
      db.settings.find? (fun s => s.tenantId == tenant.id) = some st →
      st.publicSignup = true →
      db.users.find? (fun u => u.id == userSub) = some user →
      userSub ≠ "" → trimString fullNameBody ≠ "" → trimString phoneBody ≠ "" →
      ((db.memberships.find? (fun m => m.tenantId == tenant.id && m.userId == userSub) = none →
        (joinTenantBySlug db userSub slugParam "" fullNameBody phoneBody nowMs).map
            (fun jr => jr.membership)
          = .ok ⟨tenant.id, userSub, "MEMBER", directJoinStatus (some st)⟩) ∧
       (∀ m, db.memberships.find? (fun m2 => m2.tenantId == tenant.id && m2.userId == userSub)
            = some m →
        m.status ≠ "BANNED" →
        (joinTenantBySlug db userSub slugParam "" fullNameBody phoneBody nowMs).map
            (fun jr => (jr.membership, jr.db.memberships))
          = .ok (⟨tenant.id, userSub, "MEMBER",
              if m.status == "ACTIVE" then "ACTIVE" else directJoinStatus (some st)⟩,
             upsertMembership db.memberships tenant.id userSub "MEMBER"
              (if m.status == "ACTIVE" then "ACTIVE" else directJoinStatus (some st)))))) := by
  refine ⟨?_, ?_, ?_⟩
  · intro hnone
    simp [joinTenant, htenant, hnone]
  · intro m hm
    simp [joinTenant, htenant, hm]
  · intro slugParam fullNameBody phoneBody nowMs user st hslug hst hpub huser hsub hfn hph
    have hsub2 : (userSub == "") = false := by simp [hsub]
    have htre : trimString "" = "" := rfl
    have hfn2 : (trimString fullNameBody == "") = false := by simp [hfn]
    have hph2 : (trimString phoneBody == "") = false := by simp [hph]
    constructor
    · intro hnone
      simp [joinTenantBySlug, finishJoin, directJoinStatus, Except.map, hslug, hst, hpub,
        huser, hnone, hsub2, htre, hfn2, hph2]
    · intro m hm hban
      have hban2 : (m.status == "BANNED") = false := by simp [hban]
      simp [joinTenantBySlug, finishJoin, directJoinStatus, Except.map, hslug, hst, hpub,
        huser, hm, hban2, hsub2, htre, hfn2, hph2]

/-- Witness for C7 (amended): with the approval flag set, a fresh direct
join creates a PENDING membership. -/
theorem join_direct_policy_and_existing_witness :
    joinTenant ⟨[⟨"t1", "acme"⟩], [⟨"t1", true, true⟩], [], [], [], []⟩ "u1" "t1"
      = .ok (⟨[⟨"t1", "acme"⟩], [⟨"t1", true, true⟩], [], [⟨"t1", "u1", "MEMBER", "PENDING"⟩],
              [], []⟩,
             ⟨"t1", "u1", "MEMBER", "PENDING"⟩, 201) :=
  (join_direct_policy_and_existing ⟨[⟨"t1", "acme"⟩], [⟨"t1", true, true⟩], [], [], [], []⟩
      "u1" "t1" ⟨"t1", "acme"⟩ (by decide)).1 (by decide)

/-! ## C5: invitation acceptance -/

/-- After the `(tenantId, userId)`-keyed upsert, the key lookup returns the
upserted document. -/
theorem find?_upsertMembership_key (ms : List Membership) (t u role status : String) :
    (upsertMembership ms t u role status).find? (fun m => m.tenantId == t && m.userId == u)
      = some ⟨t, u, role, status⟩ := by
  induction ms with
  | nil => simp [upsertMembership]
  | cons m rest ih =>
    unfold upsertMembership
    by_cases hm : (m.tenantId == t && m.userId == u) = true
    · rw [if_pos hm]
      exact List.find?_cons_of_pos _ (by simp)
    · rw [if_neg hm]
      rw [List.find?_cons_of_neg (upsertMembership rest t u role status) hm]
      exact ih

/-- Saving an (id-keyed) update of the first invitation matched by `p` makes
the `p`-lookup return the updated document, provided the update still
satisfies `p`. -/
theorem find?_saveInvitation (invs : List Invitation) (p : Invitation → Bool)
    (inv upd : Invitation) (h : invs.find? p = some inv) (hid : upd.id = inv.id)
    (hp : p upd = true) :
    (saveInvitation invs upd).find? p = some upd := by
  induction invs with
  | nil => simp at h
  | cons a l ih =>
    by_cases hpa : p a = true
    · rw [List.find?_cons_of_pos l hpa] at h
      injection h with h
      subst h
      have hida : (a.id == upd.id) = true := by simp [hid]
      simp only [saveInvitation, List.map_cons, hida, if_true]
      exact List.find?_cons_of_pos _ hp
    · rw [List.find?_cons_of_neg l hpa] at h
      simp only [saveInvitation, List.map_cons]
      by_cases hida : (a.id == upd.id) = true
      · rw [if_pos hida]
        exact List.find?_cons_of_pos _ hp
      · rw [if_neg hida]
        rw [List.find?_cons_of_neg _ hpa]
        exact ih h

/-- C5: accepting an invitation through `joinTenantBySlug` succeeds only
when the derived status is `SENT` and the stored (lowercase-normalized)
email equals the accepting user's registered email case-insensitively; a
non-`SENT` derived status fails with `INVITATION_INVALID` (400), an email
mismatch with `FORBIDDEN` (403).  On success the membership is upserted to
the invitation's role with status `ACTIVE` (whatever the tenant's
approval-required flag), the invitation is marked `ACCEPTED` with acceptor
and timestamp, and a second acceptance of the same token — at any later
read time — fails with `INVITATION_INVALID`. -/
theorem joinTenantBySlug_accept_spec (db : Db)
    (userSub slugParam inviteTokenBody fullNameBody phoneBody : String) (nowMs : Int)
    (tenant : Tenant) (user : User) (inv : Invitation)
    (hsub : userSub ≠ "")
    (htenant : db.tenants.find? (fun t => t.slug == toLowerString slugParam) = some tenant)
    (huser : db.users.find? (fun u => u.id == userSub) = some user)
    (hnb : ∀ m, db.memberships.find?
        (fun m2 => m2.tenantId == tenant.id && m2.userId == userSub) = some m →
        m.status ≠ "BANNED")
    (htok : trimString inviteTokenBody ≠ "")
    (hinv : db.invitations.find?
        (fun i => i.tenantId == tenant.id && i.token == trimString inviteTokenBody) = some inv)
    (hlow : toLowerString inv.email = inv.email) :
    (normalizeInvitationStatus inv.status inv.expiresAtMs nowMs ≠ "SENT" →
      joinTenantBySlug db userSub slugParam inviteTokenBody fullNameBody phoneBody nowMs
        = .error ⟨"Invitation is "
            ++ toLowerString (normalizeInvitationStatus inv.status inv.expiresAtMs nowMs),
            400, "INVITATION_INVALID"⟩) ∧
    (normalizeInvitationStatus inv.status inv.expiresAtMs nowMs = "SENT" →
      toLowerString inv.email ≠ toLowerString user.email →
      joinTenantBySlug db userSub slugParam inviteTokenBody fullNameBody phoneBody nowMs
        = .error ⟨"Invitation email does not match your account", 403, "FORBIDDEN"⟩) ∧
    (normalizeInvitationStatus inv.status inv.expiresAtMs nowMs = "SENT" →
      toLowerString inv.email = toLowerString user.email →
      joinTenantBySlug db userSub slugParam inviteTokenBody fullNameBody phoneBody nowMs
        = .ok ⟨acceptResultDb db tenant user userSub inv fullNameBody phoneBody nowMs,
               ⟨tenant.id, userSub, inv.role, "ACTIVE"⟩⟩ ∧
      (∀ nowMs2 : Int,
        joinTenantBySlug (acceptResultDb db tenant user userSub inv fullNameBody phoneBody nowMs)
            userSub slugParam inviteTokenBody fullNameBody phoneBody nowMs2
          = .error ⟨"Invitation is accepted", 400, "INVITATION_INVALID"⟩)) := by
  have hsub2 : (userSub == "") = false := by simp [hsub]
  have hban : (match db.memberships.find?
      (fun m2 => m2.tenantId == tenant.id && m2.userId == userSub) with
      | some m => m.status == "BANNED" | none => false) = false := by
    cases hm : db.memberships.find?
        (fun m2 => m2.tenantId == tenant.id && m2.userId == userSub) with
    | none => rfl
    | some m => simpa using hnb m hm
  refine ⟨fun hns => ?_, fun hsent hne => ?_, fun hsent heq => ?_⟩
  · simp [joinTenantBySlug, hsub2, htenant, huser, hban, htok, hinv, hns]
  · have hne2 : inv.email ≠ toLowerString user.email := by rw [← hlow]; exact hne
    simp [joinTenantBySlug, hsub2, htenant, huser, hban, htok, hinv, hsent, hne2]
  · have heq2 : inv.email = toLowerString user.email := by rw [← hlow]; exact heq
    have hfs : ∀ o : Option Membership, (match o with
        | some m => if m.status == "ACTIVE" then "ACTIVE" else "ACTIVE"
        | none => "ACTIVE") = "ACTIVE" := by
      intro o; cases o with
      | none => rfl
      | some m => simp
    have hfs2 : ∀ o : Option Membership, (match o with
        | some _ => "ACTIVE"
        | none => "ACTIVE") = ("ACTIVE" : String) := by
      intro o; cases o <;> rfl
    constructor
    · simp [joinTenantBySlug, finishJoin, acceptResultDb, hsub2, htenant, huser, hban, htok,
        hinv, hsent, heq2, hfs, hfs2]
    · intro nowMs2
      have hgu : ∀ a : User,
          User.id (if a.id == user.id then
            { a with
              fullName := if trimString fullNameBody ≠ "" then trimString fullNameBody
                else a.fullName
              phone := if trimString phoneBody ≠ "" then trimString phoneBody else a.phone }
            else a) = a.id := by
        intro a
        by_cases ha : (a.id == user.id) = true <;> simp [ha]
      have husers2 := find?_map_of_key User.id
        (fun a => if a.id == user.id then
          { a with
            fullName := if trimString fullNameBody ≠ "" then trimString fullNameBody
              else a.fullName
            phone := if trimString phoneBody ≠ "" then trimString phoneBody else a.phone }
          else a)
        hgu db.users userSub user huser
      have husers3 : (updateUserContact db.users user.id (trimString fullNameBody)
            (trimString phoneBody)).find? (fun u => u.id == userSub)
          = some (if user.id == user.id then
              { user with
                fullName := if trimString fullNameBody ≠ "" then trimString fullNameBody
                  else user.fullName
                phone := if trimString phoneBody ≠ "" then trimString phoneBody
                  else user.phone }
              else user) := by
        unfold updateUserContact
        exact husers2
      have hmem2 := find?_upsertMembership_key db.memberships tenant.id userSub
        inv.role "ACTIVE"
      have hinv2 := find?_saveInvitation db.invitations
        (fun i => i.tenantId == tenant.id && i.token == trimString inviteTokenBody) inv
        { inv with status := "ACCEPTED", acceptedByUserId := some userSub,
                   acceptedAtMs := some nowMs }
        hinv rfl (by simpa using List.find?_some hinv)
      have hmsg : "Invitation is " ++ toLowerString "ACCEPTED" = "Invitation is accepted" := rfl
      simp [joinTenantBySlug, acceptResultDb, normalizeInvitationStatus,
        hsub2, htenant, htok, husers3, hmem2, hinv2, hmsg]

/-- Witness for C5: a SENT invitation whose stored email matches the user's
email case-insensitively is accepted, producing an ACTIVE membership with
the invitation's role. -/
theorem joinTenantBySlug_accept_spec_witness :
    joinTenantBySlug
        ⟨[⟨"t1", "acme"⟩], [], [⟨"u1", "Bob@X.com", "", ""⟩], [],
          [{ id := "i1", tenantId := "t1", email := "bob@x.com", role := "MODERATOR",
             status := "SENT", token := "tkn", expiresAtMs := 100 }], []⟩
        "u1" "ACME" "tkn" "" "" 50
      = .ok ⟨acceptResultDb
               ⟨[⟨"t1", "acme"⟩], [], [⟨"u1", "Bob@X.com", "", ""⟩], [],
                 [{ id := "i1", tenantId := "t1", email := "bob@x.com", role := "MODERATOR",
                    status := "SENT", token := "tkn", expiresAtMs := 100 }], []⟩
               ⟨"t1", "acme"⟩ ⟨"u1", "Bob@X.com", "", ""⟩ "u1"
               { id := "i1", tenantId := "t1", email := "bob@x.com", role := "MODERATOR",
                 status := "SENT", token := "tkn", expiresAtMs := 100 }
               "" "" 50,
             ⟨"t1", "u1", "MODERATOR", "ACTIVE"⟩⟩ :=
  ((joinTenantBySlug_accept_spec
      ⟨[⟨"t1", "acme"⟩], [], [⟨"u1", "Bob@X.com", "", ""⟩], [],
        [{ id := "i1", tenantId := "t1", email := "bob@x.com", role := "MODERATOR",
           status := "SENT", token := "tkn", expiresAtMs := 100 }], []⟩
      "u1" "ACME" "tkn" "" "" 50
      ⟨"t1", "acme"⟩ ⟨"u1", "Bob@X.com", "", ""⟩
      { id := "i1", tenantId := "t1", email := "bob@x.com", role := "MODERATOR",
        status := "SENT", token := "tkn", expiresAtMs := 100 }
      (by decide) (by decide) (by decide) (fun m h => Option.noConfusion h)
      (by decide) (by decide) (by decide)).2.2 (by decide) (by decide)).1

end CommunityHub
